import Mathlib

/-!
Verification of the sscall real-time voice link against its design
specification.  The development shallowly embeds the two program variants
(`src/sscall.c`, raw PCM mode, and `src/src/sscall.c`, codec mode):
pure fragments become Lean functions on lists of bytes (naturals taken
mod 256 where it matters), the straight-line shutdown path becomes an
explicit statement list, and per-iteration behavior of the worker loops
becomes functions from the observable inputs of one iteration to the
actions the iteration performs.
-/

namespace Sscall

/-! ## Constants from `src/src/sscall.c` (codec variant) -/

/-- Frame size in samples (`FRAME_SIZE` in `src/src/sscall.c`). -/
def FRAME_SIZE : Nat := 320

/-- Compressed I/O buffer size (`COMPRESSED_BUF_SIZE`). -/
def COMPRESSED_BUF_SIZE : Nat := 1500

/-- Size in bytes of `struct compressed_header`: two packed `uint32_t`
fields (`sig`, `timestamp`). -/
def HDR_SIZE : Nat := 8

/-- Frame signature constant written by `capture`:
`hdr->sig = htonl(0xcafebabe)`. -/
def FRAME_SIG : Nat := 0xcafebabe

/-- Modulus of `size_t` on the 64-bit target; unsigned C arithmetic on
`size_t` is arithmetic mod this value. -/
def SIZE_T_MOD : Nat := 2 ^ 64

/-! ## Byte-level view of the packed header

`hdr->sig` is stored through `htonl`, hence big-endian in memory;
`hdr->timestamp` is stored directly, hence in host order (little-endian
on the x86-64 target). -/

/-- The four memory bytes of a `uint32_t` stored via `htonl`
(network order, most significant byte first). -/
def u32be (x : Nat) : List Nat :=
  [x / 16777216 % 256, x / 65536 % 256, x / 256 % 256, x % 256]

/-- The four memory bytes of a `uint32_t` stored in host order
(little-endian, least significant byte first). -/
def u32le (x : Nat) : List Nat :=
  [x % 256, x / 256 % 256, x / 65536 % 256, x / 16777216 % 256]

/-- The wire frame built by `capture` (lines 244..261 of
`src/src/sscall.c`): the packed header (`sig` via `htonl`, then
`timestamp` in host order) immediately followed by the encoded payload. -/
def encodeFrame (timestamp : Nat) (payload : List Nat) : List Nat :=
  u32be FRAME_SIG ++ u32le timestamp ++ payload

/-- The read of `hdr->timestamp` performed by `process_compressed_packet`
on a received buffer: the little-endian `uint32_t` at byte offset 4. -/
def tsField (buf : List Nat) : Nat :=
  match buf.drop 4 with
  | b0 :: b1 :: b2 :: b3 :: _ =>
      b0 % 256 + 256 * (b1 % 256) + 65536 * (b2 % 256) + 16777216 * (b3 % 256)
  | _ => 0

/-- What `process_compressed_packet` hands onward: the stored length
`cbuf->len`, the copied payload bytes (passed to `speex_jitter_put` and
kept in the queue entry), and the timestamp read from the header. -/
structure routed_packet where
  storedLen : Nat
  payload : List Nat
  recvTimestamp : Nat
deriving DecidableEq, Repr

/-- `process_compressed_packet` (`src/src/sscall.c` lines 188..217): it
computes `cbuf->len = len - sizeof(*hdr)` — an unchecked `size_t`
subtraction that wraps around for `len < 8` — copies that many bytes
starting at `buf + sizeof(*hdr)`, reads `hdr->timestamp`, and
unconditionally calls `speex_jitter_put` and `enqueue_for_playback` on
the result.  The function contains no length check and no comparison of
`hdr->sig` against the expected constant. -/
def process_compressed_packet (buf : List Nat) : routed_packet :=
  { storedLen := (buf.length + SIZE_T_MOD - HDR_SIZE) % SIZE_T_MOD
    payload := (buf.drop HDR_SIZE).take ((buf.length + SIZE_T_MOD - HDR_SIZE) % SIZE_T_MOD)
    recvTimestamp := tsField buf }

/-- One iteration of the receive loop of `main` (`src/src/sscall.c`
lines 554..572): whenever `recvfrom` returns `bytes > 0` (modelled as
`some buf`), the buffer is passed to `process_compressed_packet`; a
non-positive return (`none`) routes nothing. -/
def recvDispatch (recvResult : Option (List Nat)) : Option routed_packet :=
  recvResult.map process_compressed_packet

/-- A received datagram whose signature field is not `0xCAFEBABE`:
twelve zero bytes. -/
def badDatagram : List Nat := List.replicate 12 0

/-- A received datagram shorter than the 8-byte header. -/
def shortDatagram : List Nat := [1, 2, 3]

/-! ## Capture Worker (`capture`, `src/src/sscall.c` lines 220..272)

The loop state that matters for the outgoing header is the `timestamp`
counter, initialised to 0 before the loop.  Each iteration performs a
non-blocking `read`; on `inbytes > 0` (modelled as `some pcm`) it
encodes the input (`speex_encode_int`, an external codec modelled as an
abstract function `enc`), writes the current counter into the header —
the `int` value is truncated to the `uint32_t` field — sends the frame,
and advances the counter by `FRAME_SIZE`.  A non-positive read
(`none`) sends nothing and leaves the counter unchanged. -/

/-- The (header timestamp, encoded payload) pairs sent by the capture
loop, given the sequence of read results and the current counter. -/
def captureRun (enc : List Int → List Nat) :
    List (Option (List Int)) → Nat → List (Nat × List Nat)
  | [], _ => []
  | none :: rest, ts => captureRun enc rest ts
  | some pcm :: rest, ts =>
      (ts % 2 ^ 32, enc pcm) :: captureRun enc rest (ts + FRAME_SIZE)

/-- The wire frames sent by the capture thread: counter starts at 0,
each sent pair is framed by `encodeFrame`. -/
def captureFrames (enc : List Int → List Nat)
    (reads : List (Option (List Int))) : List (List Nat) :=
  (captureRun enc reads 0).map fun p => encodeFrame p.fst p.snd

/-! ## Playback Queue, raw variant (`src/sscall.c`)

`do_output_pcm` (lines 149..171) allocates a copy of the received block
and appends it to the shared list with `list_add_tail`; the
`output_pcm` thread (lines 131..138) walks the list from the head with
`list_for_each_safe`, playing and unlinking each entry. -/

/-- A queued PCM block (the byte buffer copied by `do_output_pcm`). -/
abbrev PcmBlock := List Nat

/-- Modelled from the spec: `list.h` is part of the repository but not
under `src/`; per the spec (§4.2), `push` "appends `block` to the
tail", which is what `list_add_tail` does on the intrusive list. -/
def list_add_tail (q : List PcmBlock) (b : PcmBlock) : List PcmBlock :=
  q ++ [b]

/-- `do_output_pcm`: enqueue one block at the tail of the shared list
(the copy into a fresh allocation is identity on the byte contents). -/
def do_output_pcm (q : List PcmBlock) (b : PcmBlock) : List PcmBlock :=
  list_add_tail q b

/-- Modelled from the spec: `list.h` (`list_for_each_safe`) is not under
`src/`; per the spec (§4.5) the drain loop of `output_pcm` walks the
queue from the head in FIFO order, playing each entry via `ao_play` and
unlinking it.  The result lists the blocks in the order they are handed
to `ao_play`. -/
def outputDrain : List PcmBlock → List PcmBlock
  | [] => []
  | b :: rest => b :: outputDrain rest

/-! ## Speex jitter buffer (codec variant)

`speex_jitter_get` / `speex_jitter_put` live in
`speex_jitter_buffer.c`, which belongs to the repository but is not
under `src/`; they are modelled from the spec below. -/

/-- Modelled from the spec: the Jitter Buffer State of
`speex_jitter_buffer.c` (not under `src/`) holds "a bounded history of
recently-arrived compressed frames indexed by timestamp" (`pending`),
"the playback cursor — the timestamp of the next frame expected to be
rendered" (`cursor`), and the recent decoded history that loss
concealment continues from (`history`). -/
structure SpeexJitter where
  pending : List (Nat × List Nat)
  cursor : Nat
  history : List Int

/-- Modelled from the spec: `speex_jitter_init` starts with no buffered
frames, cursor at the origin, and no decoded history. -/
def speex_jitter_init : SpeexJitter :=
  { pending := [], cursor := 0, history := [] }

/-- One frame worth of samples: the codec contract (§6) returns one
frame of PCM per decode; the block handed back always has exactly
`FRAME_SIZE` samples. -/
def fitFrame (l : List Int) : List Int :=
  (l ++ List.replicate FRAME_SIZE 0).take FRAME_SIZE

/-- Modelled from the spec: loss concealment "synthesizes a plausible
continuation from recent history, silence if no history" — one frame
continuing the most recent decoded sample, all zero when there is no
history. -/
def concealFrame (jb : SpeexJitter) : List Int :=
  List.replicate FRAME_SIZE (jb.history.headD 0)

/-- Modelled from the spec: `speex_jitter_put` (§4.3) "inserts the
frame into the internal store keyed by timestamp; if a frame for the
same or an already-consumed timestamp already exists, the new one is
dropped.  No blocking." -/
def speex_jitter_put (jb : SpeexJitter) (frame : List Nat) (ts : Nat) :
    SpeexJitter :=
  if ts < jb.cursor then jb
  else if (jb.pending.lookup ts).isSome then jb
  else { jb with pending := (ts, frame) :: jb.pending }

/-- Modelled from the spec: `speex_jitter_get` (§4.3) "decodes and
returns exactly one frame's worth of audio corresponding to the current
playback cursor; advances the cursor by one frame size regardless of
whether real data was available.  If no frame is present at the cursor,
the decoder is invoked in loss concealment mode rather than blocking or
failing."  The external decoder is the abstract function `dec`.  The
function is total: it returns on every input without waiting for
network data. -/
def speex_jitter_get (dec : List Nat → List Int) (jb : SpeexJitter) :
    List Int × SpeexJitter :=
  match jb.pending.lookup jb.cursor with
  | some frame =>
      let pcm := fitFrame (dec frame)
      (pcm, { pending := jb.pending.filter fun p => p.fst != jb.cursor
              cursor := jb.cursor + FRAME_SIZE
              history := pcm })
  | none =>
      let pcm := concealFrame jb
      (pcm, { pending := jb.pending
              cursor := jb.cursor + FRAME_SIZE
              history := pcm })

/-! ## Playback Worker drain, codec variant (`playback`,
`src/src/sscall.c` lines 151..167)

The inner loop walks the queued compressed entries; for each entry it
calls `speex_jitter_get` once into the local `spx_int16_t
pcm[FRAME_SIZE]` array and then plays exactly `sizeof(pcm)` bytes via
`ao_play` — the byte count is the static array size, not the entry's
`cbuf->len`. -/

/-- A codec-mode queue entry (`struct compressed_buf`): the stored
compressed bytes and the stored `size_t` length. -/
structure compressed_entry where
  buf : List Nat
  len : Nat

/-- The drain loop of `playback`: one `speex_jitter_get` per queued
entry, threading the jitter state; returns the PCM blocks in the order
they are handed to `ao_play`, and the final jitter state. -/
def playbackDrain (dec : List Nat → List Int) :
    SpeexJitter → List compressed_entry → List (List Int) × SpeexJitter
  | jb, [] => ([], jb)
  | jb, _ :: rest =>
      let pr := speex_jitter_get dec jb
      let tail := playbackDrain dec pr.snd rest
      (pr.fst :: tail.fst, tail.snd)

/-! ## Playback Worker wait discipline (`playback`,
`src/src/sscall.c` lines 123..149; identically `output_pcm`,
`src/sscall.c` lines 102..128)

One iteration of the outer loop, as a function of the observable inputs
of that iteration: whether the queue is empty at the empty-check,
whether a performed wait ended in `ETIMEDOUT`, the verbose flag, and
the quit flag read after the wait.  The result is the ordered list of
actions the iteration performs and whether the loop continues. -/

/-- Observable actions of one playback-loop iteration. -/
inductive PlaybackAct
  | timedWait (secs : Nat)
  | logStarving
  | checkQuit
  | exitLoop
  | drainAndPlay
deriving DecidableEq, Repr

/-- One iteration of the playback loop: under the queue lock, if the
list is empty, `pthread_cond_timedwait` with an absolute deadline 3
seconds from now; on `ETIMEDOUT` a diagnostic only when `fverbose`;
then the quit flag is read (under its own lock) and decides between
breaking out and draining; the loop continues exactly when quit is
unset. -/
def playbackIter (queueEmpty timedOut verbose quit : Bool) :
    List PlaybackAct × Bool :=
  let waitActs : List PlaybackAct :=
    if queueEmpty then
      PlaybackAct.timedWait 3 ::
        (if timedOut && verbose then [PlaybackAct.logStarving] else [])
    else []
  (waitActs ++ [PlaybackAct.checkQuit] ++
    (if quit then [PlaybackAct.exitLoop] else [PlaybackAct.drainAndPlay]),
   !quit)

/-! ## Shutdown path (`main`, `src/src/sscall.c` lines 575..601; the
raw variant, `src/sscall.c` lines 450..476, is statement-for-statement
the same with `capture`/`playback` read as `input_pcm`/`output_pcm` and
only `deinit_ao` plus the `freeaddrinfo` calls as releases)

The epilogue after the receive loop is straight-line code, executed
sequentially — each statement completes before the next begins. -/

/-- The statements of the shutdown epilogue, in program order. -/
inductive ShutdownStmt
  | lockCaptureState
  | setCaptureQuit
  | unlockCaptureState
  | joinCapture
  | lockPlaybackState
  | setPlaybackQuit
  | unlockPlaybackState
  | lockCompressedBuf
  | condSignal
  | unlockCompressedBuf
  | joinPlayback
  | deinitSpeexCall
  | deinitAoCall
  | freeCliAddrinfo
  | freeSrvAddrinfo
deriving DecidableEq, Repr

/-- The shutdown epilogue of the codec `main`, transcribed statement by
statement from `src/src/sscall.c` lines 575..601. -/
def mainShutdown : List ShutdownStmt :=
  [ShutdownStmt.lockCaptureState, ShutdownStmt.setCaptureQuit,
   ShutdownStmt.unlockCaptureState, ShutdownStmt.joinCapture,
   ShutdownStmt.lockPlaybackState, ShutdownStmt.setPlaybackQuit,
   ShutdownStmt.unlockPlaybackState, ShutdownStmt.lockCompressedBuf,
   ShutdownStmt.condSignal, ShutdownStmt.unlockCompressedBuf,
   ShutdownStmt.joinPlayback, ShutdownStmt.deinitSpeexCall,
   ShutdownStmt.deinitAoCall, ShutdownStmt.freeCliAddrinfo,
   ShutdownStmt.freeSrvAddrinfo]

/-- The abstract shutdown steps named by the specification (§4.7). -/
inductive ShutdownStep
  | setCaptureQuitFlag
  | joinCaptureWorker
  | setPlaybackQuitFlag
  | wakePlaybackQueue
  | joinPlaybackWorker
  | releaseResources
deriving DecidableEq, Repr

/-- Abstraction from concrete statements to the steps of §4.7: setting
a quit flag (under its lock), joining a thread, signalling the queue
condition variable (the explicit wake), and the resource releases
(`deinit_speex`, `deinit_ao`, the `freeaddrinfo` calls). -/
def abstractStep : ShutdownStmt → Option ShutdownStep
  | ShutdownStmt.setCaptureQuit => some ShutdownStep.setCaptureQuitFlag
  | ShutdownStmt.joinCapture => some ShutdownStep.joinCaptureWorker
  | ShutdownStmt.setPlaybackQuit => some ShutdownStep.setPlaybackQuitFlag
  | ShutdownStmt.condSignal => some ShutdownStep.wakePlaybackQueue
  | ShutdownStmt.joinPlayback => some ShutdownStep.joinPlaybackWorker
  | ShutdownStmt.deinitSpeexCall => some ShutdownStep.releaseResources
  | ShutdownStmt.deinitAoCall => some ShutdownStep.releaseResources
  | ShutdownStmt.freeCliAddrinfo => some ShutdownStep.releaseResources
  | ShutdownStmt.freeSrvAddrinfo => some ShutdownStep.releaseResources
  | _ => none

/-! ## Setup path of the codec `main` (`src/src/sscall.c` lines
431..536)

After option parsing, the relevant straight-line prefix is: default
`fbits` to 16; for `fchan`, default 0 to 1, accept 1, and on any other
value `errx(1, "Unsupported number of channels: %d", fchan)` — a
diagnostic on stderr followed by `exit(1)`; then default `frate` to
16000, open the device (`init_ao`), initialise the codec
(`init_speex`), and later start the playback and capture workers. -/

/-- Observable events of the setup path. -/
inductive SetupEvent
  | chanDiagnostic (c : Int)
  | exitProcess (code : Nat)
  | openDevice (rate bits chans : Int)
  | initCodec
  | startPlayback
  | startCapture
deriving DecidableEq, Repr

/-- The setup events after a successful channel check. -/
def setupTail (fbits chans frate : Int) : List SetupEvent :=
  [SetupEvent.openDevice (if frate = 0 then 16000 else frate)
     (if fbits = 0 then 16 else fbits) chans,
   SetupEvent.initCodec, SetupEvent.startPlayback, SetupEvent.startCapture]

/-- The setup path of the codec `main` as a function of the three
numeric options (`fbits`, `fchan`, `frate`; all default to 0 when the
option is absent). -/
def codecMainSetup (fbits fchan frate : Int) : List SetupEvent :=
  if fchan = 0 then setupTail fbits 1 frate
  else if fchan = 1 then setupTail fbits fchan frate
  else [SetupEvent.chanDiagnostic fchan, SetupEvent.exitProcess 1]

/-! ## Helper lemmas -/

/-- `fitFrame` always yields exactly one frame of samples. -/
theorem fitFrame_length (l : List Int) : (fitFrame l).length = FRAME_SIZE := by
  simp [fitFrame]

/-- Loss concealment always yields exactly one frame of samples. -/
theorem concealFrame_length (jb : SpeexJitter) :
    (concealFrame jb).length = FRAME_SIZE := by
  simp [concealFrame]

/-- `speex_jitter_get` returns a block of exactly `FRAME_SIZE` samples
on every jitter state, for every decoder. -/
theorem speex_jitter_get_length (dec : List Nat → List Int)
    (jb : SpeexJitter) : (speex_jitter_get dec jb).fst.length = FRAME_SIZE := by
  unfold speex_jitter_get
  cases h : jb.pending.lookup jb.cursor <;>
    simp [h, fitFrame_length, concealFrame_length]

/-- `speex_jitter_get` advances the playback cursor by exactly one
frame size. -/
theorem speex_jitter_get_cursor (dec : List Nat → List Int)
    (jb : SpeexJitter) :
    (speex_jitter_get dec jb).snd.cursor = jb.cursor + FRAME_SIZE := by
  unfold speex_jitter_get
  cases h : jb.pending.lookup jb.cursor <;> simp [h]

/-- Folding pushes over the queue appends them in order at the tail. -/
theorem foldl_do_output_pcm (xs : List PcmBlock) :
    ∀ q : List PcmBlock, xs.foldl do_output_pcm q = q ++ xs := by
  induction xs with
  | nil => intro q; simp
  | cons x rest ih =>
      intro q
      simp [List.foldl_cons, do_output_pcm, list_add_tail, ih (q ++ [x])]

/-- The drain loop visits the list from the head without reordering. -/
theorem outputDrain_eq (l : List PcmBlock) : outputDrain l = l := by
  induction l with
  | nil => rfl
  | cons b rest ih => simp [outputDrain, ih]

/-- The 8 header bytes written by `capture` in front of the payload. -/
theorem header_length (T : Nat) :
    (u32be FRAME_SIG ++ u32le T).length = HDR_SIZE := by
  simp [u32be, u32le, HDR_SIZE]

/-- A frame splits as header-then-payload. -/
theorem encodeFrame_split (T : Nat) (payload : List Nat) :
    encodeFrame T payload = u32be FRAME_SIG ++ (u32le T ++ payload) := by
  simp [encodeFrame]

/-- Length of a wire frame. -/
theorem encodeFrame_length (T : Nat) (payload : List Nat) :
    (encodeFrame T payload).length = payload.length + HDR_SIZE := by
  have h := header_length T
  rw [encodeFrame_split, ← List.append_assoc, List.length_append, h]
  omega

/-- Dropping the header of a frame recovers the payload bytes. -/
theorem encodeFrame_drop (T : Nat) (payload : List Nat) :
    (encodeFrame T payload).drop HDR_SIZE = payload := by
  rw [encodeFrame_split, ← List.append_assoc, ← header_length T,
    List.drop_left]

/-- Reading `hdr->timestamp` from a frame recovers the `uint32_t` value
that was stored. -/
theorem tsField_encodeFrame (T : Nat) (payload : List Nat)
    (hT : T < 2 ^ 32) :
    tsField (encodeFrame T payload) = T := by
  have hdrop4 : (encodeFrame T payload).drop 4 = u32le T ++ payload := by
    have h4 : (u32be FRAME_SIG).length = 4 := by simp [u32be]
    rw [encodeFrame_split, ← h4, List.drop_left]
  have hT4 : T < 4294967296 := by norm_num at hT; exact hT
  unfold tsField
  rw [hdrop4]
  simp only [u32le, List.cons_append, List.nil_append]
  omega

/-- Index lemma for the capture loop: starting the counter at `ts`, the
`n`-th sent pair carries header timestamp `(ts + n * FRAME_SIZE)` as a
`uint32_t`. -/
theorem captureRun_getD (enc : List Int → List Nat) :
    ∀ (reads : List (Option (List Int))) (ts n : Nat),
      n < (captureRun enc reads ts).length →
      ((captureRun enc reads ts).getD n (0, [])).fst =
        (ts + n * FRAME_SIZE) % 2 ^ 32 := by
  intro reads
  induction reads with
  | nil => intro ts n h; simp [captureRun] at h
  | cons r rest ih =>
      intro ts n h
      cases r with
      | none =>
          simpa [captureRun] using ih ts n (by simpa [captureRun] using h)
      | some pcm =>
          cases n with
          | zero => simp [captureRun]
          | succ m =>
              have hlt : m < (captureRun enc rest (ts + FRAME_SIZE)).length := by
                simpa [captureRun] using h
              have hrec := ih (ts + FRAME_SIZE) m hlt
              have harg : ts + FRAME_SIZE + m * FRAME_SIZE =
                  ts + (m + 1) * FRAME_SIZE := by ring
              calc ((captureRun enc (some pcm :: rest) ts).getD (m + 1)
                      (0, [])).fst
                  = ((captureRun enc rest (ts + FRAME_SIZE)).getD m
                      (0, [])).fst := by
                    simp [captureRun]
                _ = (ts + FRAME_SIZE + m * FRAME_SIZE) % 2 ^ 32 := hrec
                _ = (ts + (m + 1) * FRAME_SIZE) % 2 ^ 32 := by rw [harg]

/-! ## Claims -/

/-- C1: the specification claims that in codec mode every inbound
datagram shorter than the 8-byte header, or whose signature field
differs from `0xCAFEBABE`, is discarded before routing, and that no
such payload ever reaches the jitter buffer or the playback queue.  The
code does the opposite: `process_compressed_packet` validates nothing.
A 12-byte all-zero datagram (signature field 0, not `0xCAFEBABE`) is
routed to `speex_jitter_put` and enqueued; a 3-byte datagram is also
routed, with `cbuf->len = 3 - 8` wrapped around to `2^64 - 5`. -/
theorem bad_datagrams_still_routed :
    badDatagram.take 4 ≠ u32be FRAME_SIG ∧
    recvDispatch (some badDatagram) =
      some { storedLen := 4, payload := [0, 0, 0, 0], recvTimestamp := 0 } ∧
    shortDatagram.length < HDR_SIZE ∧
    recvDispatch (some shortDatagram) =
      some { storedLen := 18446744073709551611, payload := [],
             recvTimestamp := 0 } := by
  refine ⟨by decide, ?_, by decide, ?_⟩ <;> rfl

/-- C2: `speex_jitter_get` is a total function of the jitter state — it
returns without waiting for network data — and on every state, in
particular on the initial state with zero prior `speex_jitter_put`
calls, it yields a block of exactly `FRAME_SIZE` samples, advancing the
cursor by one frame size; the playback loop therefore obtains one
valid-length frame of decoded audio per drained entry even under
packet loss. -/
theorem jitter_get_never_blocks (dec : List Nat → List Int)
    (jb : SpeexJitter) :
    (speex_jitter_get dec jb).fst.length = FRAME_SIZE ∧
    (speex_jitter_get dec speex_jitter_init).fst.length = FRAME_SIZE ∧
    (speex_jitter_get dec jb).snd.cursor = jb.cursor + FRAME_SIZE :=
  ⟨speex_jitter_get_length dec jb, speex_jitter_get_length dec _,
   speex_jitter_get_cursor dec jb⟩

/-- C3: the playback queue is FIFO — for any starting queue contents
and any sequence of pushes with no intervening pop, the drain returns
the starting contents followed by the pushed blocks in exactly producer
insertion order: `do_output_pcm` appends at the tail, the dequeue loop
removes from the head, and the queue itself never reorders entries. -/
theorem playback_queue_fifo (q : List PcmBlock) (xs : List PcmBlock) :
    outputDrain (xs.foldl do_output_pcm q) = q ++ xs := by
  rw [foldl_do_output_pcm xs q, outputDrain_eq]

/-- C6: the shutdown path performs, in this order: set the capture
quit flag, join the capture thread, set the playback quit flag, signal
the playback queue condition variable, join the playback thread, and
only then the resource releases (`deinit_speex`, `deinit_ao`, and the
two `freeaddrinfo` calls); being straight-line code, each statement
completes before the next begins. -/
theorem shutdown_order :
    mainShutdown.filterMap abstractStep =
      [ShutdownStep.setCaptureQuitFlag, ShutdownStep.joinCaptureWorker,
       ShutdownStep.setPlaybackQuitFlag, ShutdownStep.wakePlaybackQueue,
       ShutdownStep.joinPlaybackWorker, ShutdownStep.releaseResources,
       ShutdownStep.releaseResources, ShutdownStep.releaseResources,
       ShutdownStep.releaseResources] := by
  decide

/-- C7: when the playback worker finds the queue empty it waits on the
condition variable with a fixed 3-second timeout; a timeout is not an
error — the starvation diagnostic appears exactly when the wait timed
out and verbose mode is on; the quit flag is re-checked after waking
(the check follows the wait in the action order); and when quit is
unset the loop continues normally whether or not the wait timed out. -/
theorem playback_wait_discipline (timedOut verbose quit : Bool) :
    (playbackIter true timedOut verbose quit).fst.head? =
      some (PlaybackAct.timedWait 3) ∧
    (PlaybackAct.logStarving ∈ (playbackIter true timedOut verbose quit).fst ↔
      timedOut = true ∧ verbose = true) ∧
    PlaybackAct.checkQuit ∈
      ((playbackIter true timedOut verbose quit).fst.drop 1) ∧
    (playbackIter true timedOut verbose quit).snd = !quit ∧
    (playbackIter false timedOut verbose quit).fst.head? =
      some PlaybackAct.checkQuit := by
  cases timedOut <;> cases verbose <;> cases quit <;> decide

/-- C10: in codec mode the playback drain performs exactly one
`speex_jitter_get` and one `ao_play` per drained queue entry, and every
write to the audio sink is exactly one fixed block of `FRAME_SIZE`
16-bit samples — `sizeof(pcm)` = 2 * 320 = 640 bytes — independent of
the byte length stored in the drained entry. -/
theorem playback_fixed_block_writes (dec : List Nat → List Int)
    (jb : SpeexJitter) (q : List compressed_entry) :
    (playbackDrain dec jb q).fst.length = q.length ∧
    ∀ pcm ∈ (playbackDrain dec jb q).fst, 2 * pcm.length = 640 := by
  induction q generalizing jb with
  | nil => simp [playbackDrain]
  | cons e rest ih =>
      obtain ⟨ih1, ih2⟩ := ih (speex_jitter_get dec jb).snd
      refine ⟨by simp [playbackDrain, ih1], ?_⟩
      intro pcm hm
      simp only [playbackDrain, List.mem_cons] at hm
      rcases hm with h | h
      · rw [h, speex_jitter_get_length dec jb]
        rfl
      · exact ih2 pcm h

/-- C4: framing round-trips — for every payload of valid length (it
fits the compressed send buffer together with the header) and every
32-bit timestamp, the wire frame is exactly the 8-byte header
(signature, then timestamp) followed by the payload, so its length is
the payload length plus the header size; and the receive side
(`process_compressed_packet`) recovers exactly that timestamp and the
original payload bytes. -/
theorem framing_round_trip (T : Nat) (payload : List Nat)
    (hT : T < 2 ^ 32)
    (hL : payload.length + HDR_SIZE ≤ COMPRESSED_BUF_SIZE) :
    (encodeFrame T payload).length = payload.length + HDR_SIZE ∧
    process_compressed_packet (encodeFrame T payload) =
      { storedLen := payload.length, payload := payload,
        recvTimestamp := T } := by
  have hlen := encodeFrame_length T payload
  have hL4 : payload.length ≤ 1492 := by
    simp only [COMPRESSED_BUF_SIZE, HDR_SIZE] at hL; omega
  have hmod : SIZE_T_MOD = 18446744073709551616 := by norm_num [SIZE_T_MOD]
  have hstored : ((encodeFrame T payload).length + SIZE_T_MOD - HDR_SIZE) %
      SIZE_T_MOD = payload.length := by
    rw [hlen, hmod]
    simp only [HDR_SIZE]
    omega
  refine ⟨hlen, ?_⟩
  have hform : process_compressed_packet (encodeFrame T payload) =
      { storedLen := payload.length,
        payload := ((encodeFrame T payload).drop HDR_SIZE).take payload.length,
        recvTimestamp := tsField (encodeFrame T payload) } := by
    simp only [process_compressed_packet, hstored]
  rw [hform, encodeFrame_drop, List.take_length payload,
    tsField_encodeFrame T payload hT]

/-- Witness for C4 at `T = 320`, `payload = [1, 2, 6]`. -/
theorem framing_round_trip_witness :
    (320 : Nat) < 2 ^ 32 ∧
    ([1, 2, 6] : List Nat).length + HDR_SIZE ≤ COMPRESSED_BUF_SIZE ∧
    ((encodeFrame 320 [1, 2, 6]).length = ([1, 2, 6] : List Nat).length + HDR_SIZE ∧
      process_compressed_packet (encodeFrame 320 [1, 2, 6]) =
        { storedLen := ([1, 2, 6] : List Nat).length, payload := [1, 2, 6],
          recvTimestamp := 320 }) :=
  ⟨by norm_num, by decide,
    framing_round_trip 320 [1, 2, 6] (by norm_num) (by decide)⟩

/-- C5: the capture worker's outgoing timestamp is a sample counter,
not wall-clock time — it starts at 0 and each sent frame carries the
current counter value in its header, after which the counter advances
by exactly `FRAME_SIZE` (320) samples; hence, as long as the `uint32_t`
field does not wrap, the `n`-th sent frame carries header timestamp
`n * 320`, both in the sent pair and as read back from the wire bytes
of the `n`-th frame. -/
theorem capture_timestamp_counter (enc : List Int → List Nat)
    (reads : List (Option (List Int))) (n : Nat)
    (hn : n < (captureRun enc reads 0).length)
    (hov : n * FRAME_SIZE < 2 ^ 32) :
    ((captureRun enc reads 0).getD n (0, [])).fst = n * FRAME_SIZE ∧
    tsField ((captureFrames enc reads).getD n []) = n * FRAME_SIZE := by
  have h := captureRun_getD enc reads 0 n hn
  rw [Nat.zero_add, Nat.mod_eq_of_lt hov] at h
  refine ⟨h, ?_⟩
  have hn2 : n < (captureFrames enc reads).length := by
    simpa [captureFrames] using hn
  have hmap : (captureFrames enc reads).getD n [] =
      encodeFrame ((captureRun enc reads 0).getD n (0, [])).fst
        ((captureRun enc reads 0).getD n (0, [])).snd := by
    rw [List.getD_eq_getElem _ _ hn2, List.getD_eq_getElem _ _ hn]
    simp [captureFrames]
  rw [hmap, h, tsField_encodeFrame _ _ hov]

/-- Encoder used by the C5 witness. -/
def enc0 : List Int → List Nat := fun _ => [9]

/-- Read sequence used by the C5 witness: two positive reads with one
empty poll between them. -/
def reads0 : List (Option (List Int)) := [some [1], none, some [2]]

/-- Witness for C5 at `n = 1` on a concrete read sequence. -/
theorem capture_timestamp_counter_witness :
    1 < (captureRun enc0 reads0 0).length ∧ 1 * FRAME_SIZE < 2 ^ 32 ∧
    (((captureRun enc0 reads0 0).getD 1 (0, [])).fst = 1 * FRAME_SIZE ∧
      tsField ((captureFrames enc0 reads0).getD 1 []) = 1 * FRAME_SIZE) :=
  ⟨by decide, by decide,
    capture_timestamp_counter enc0 reads0 1 (by decide) (by decide)⟩

/-- C8: the codec variant rejects every non-mono configuration — if
the channel-count option is any value other than 0 (unset) or 1, setup
emits the unsupported-channels diagnostic and the process exits with
status 1, and the setup trace contains no device open and no worker
start; an unset channel count (0) takes the same path as an explicit 1,
with channel count 1 passed to the device open, and never exits with
status 1 at the channel check. -/
theorem codec_rejects_non_mono (fbits frate fchan : Int)
    (h0 : fchan ≠ 0) (h1 : fchan ≠ 1) :
    codecMainSetup fbits fchan frate =
      [SetupEvent.chanDiagnostic fchan, SetupEvent.exitProcess 1] ∧
    (∀ rt bt ch, SetupEvent.openDevice rt bt ch ∉ codecMainSetup fbits fchan frate) ∧
    SetupEvent.startPlayback ∉ codecMainSetup fbits fchan frate ∧
    SetupEvent.startCapture ∉ codecMainSetup fbits fchan frate ∧
    codecMainSetup fbits 0 frate = codecMainSetup fbits 1 frate ∧
    SetupEvent.exitProcess 1 ∉ codecMainSetup fbits 0 frate ∧
    SetupEvent.openDevice (if frate = 0 then 16000 else frate)
      (if fbits = 0 then 16 else fbits) 1 ∈ codecMainSetup fbits 0 frate := by
  have hreject : codecMainSetup fbits fchan frate =
      [SetupEvent.chanDiagnostic fchan, SetupEvent.exitProcess 1] := by
    simp [codecMainSetup, h0, h1]
  refine ⟨hreject, ?_, ?_, ?_, ?_, ?_, ?_⟩
  · intro rt bt ch
    rw [hreject]
    simp
  · rw [hreject]; simp
  · rw [hreject]; simp
  · simp [codecMainSetup]
  · simp [codecMainSetup, setupTail]
  · simp [codecMainSetup, setupTail]

/-- Witness for C8 at `fbits = 0`, `frate = 0`, `fchan = 2`. -/
theorem codec_rejects_non_mono_witness :
    (2 : Int) ≠ 0 ∧ (2 : Int) ≠ 1 ∧
    codecMainSetup 0 2 0 =
      [SetupEvent.chanDiagnostic 2, SetupEvent.exitProcess 1] :=
  ⟨by decide, by decide,
    (codec_rejects_non_mono 0 0 2 (by decide) (by decide)).1⟩

end Sscall
